import Mathlib

/-!
# CokeDividendosApp — verification of the caching / fetch-coordination core

Shallow embedding of the repository's caching layer and its consumers:

* `src/services/finance_data.py` — value normalizer `_json_safe`,
  memoization wrapper `_cache_get_or_set`, derived performance metrics
  (`get_perf_metrics._load`).
* `src/services/cache_store.py` — SQLite-backed key/value cache
  (`cache_get`, `cache_set`, `cache_delete`, `cache_clear`).
* `src/services/usage_limits.py` — daily search-quota ledger
  (`consume_search`).
* `src/services/yf_client.py` — retry wrapper `yf_call`.
* `src/services/rapidapi_client.py` — HTTP fetch with retry
  (`rapidapi_get`) and the cached wrapper with negative-result
  circuit breaker (`rapidapi_cached_get`).

Modelling conventions:

* Python run-time values are the inductive `PyVal` (finite trees; cyclic
  Python objects are not representable).  Machine floats are modelled as
  rationals; the float-specific operations that the claims do not depend
  on numerically (`**`, `std`, `sqrt`) are abstracted into a `FloatOps`
  record passed explicitly.
* Time is `Int` (unix seconds, as produced by `int(time.time())`).
* The SQLite table `kv_cache` is a function `String → Option CacheRow`;
  every statement in the source touches a single key, so this captures
  the store exactly.  The serialized `value_json` text is represented by
  the value that `json.loads` recovers from it (`Option PyVal`, `none`
  standing for text that does not parse), since the text is only ever
  observed through `json.loads`.
* Stateful Python functions become Lean functions from the state (and
  the current time) to the new state plus their return value.  Loader
  thunks / HTTP responses become explicit arguments (`Except` results,
  response sequences indexed by attempt number), making retry counts
  observable.
-/

namespace CokeApp

mutual

/-- The universe of Python values the caching layer can encounter,
mirroring the `isinstance` dispatch of `_json_safe` in
`src/services/finance_data.py`.  Dictionaries and lists are represented
with dedicated mutual list types so that structural mutual recursion and
induction are available.  `pdatetime` carries the string produced by
`.isoformat()`; `pobj` is any other object, carrying its `str()`
rendering. -/
inductive PyVal where
  | pnone : PyVal
  | pbool : Bool → PyVal
  | pint : Int → PyVal
  | pfloat : Rat → PyVal
  | pstr : String → PyVal
  | pdatetime : String → PyVal
  | pdict : PyEntries → PyVal
  | plist : PyVals → PyVal
  | ptuple : PyVals → PyVal
  | pset : PyVals → PyVal
  | pnpint : Int → PyVal
  | pnpfloat : Rat → PyVal
  | pnpbool : Bool → PyVal
  | pdictlike : PyEntries → PyVal
  | pobj : String → PyVal

/-- A Python list of values (element spine of `plist`/`ptuple`/`pset`). -/
inductive PyVals where
  | nil : PyVals
  | cons : PyVal → PyVals → PyVals

/-- Entries of a Python dict: key/value pairs in iteration order. -/
inductive PyEntries where
  | nil : PyEntries
  | cons : PyVal → PyVal → PyEntries → PyEntries

end

end CokeApp

namespace CokeApp

open PyVal

/-- Python's `str()` on the values above.  Only the clause for strings
(`str` of a `str` is itself) is relied upon by any theorem; the other
renderings are coarse but deterministic stand-ins. -/
def pyStr : PyVal → String
  | .pnone => "None"
  | .pbool b => if b then "True" else "False"
  | .pint n => toString n
  | .pfloat q => toString q
  | .pstr s => s
  | .pdatetime iso => iso
  | .pdict _ => "<dict>"
  | .plist _ => "<list>"
  | .ptuple _ => "<tuple>"
  | .pset _ => "<set>"
  | .pnpint n => toString n
  | .pnpfloat q => toString q
  | .pnpbool b => if b then "True" else "False"
  | .pdictlike _ => "<dictlike>"
  | .pobj s => s

mutual

/-- `_json_safe` from `src/services/finance_data.py`:
primitives pass through, `datetime`/`date` become their ISO string,
dicts map to string-keyed dicts of normalized values, `list`/`tuple`/`set`
become lists of normalized values, numpy scalars unbox, dict-like objects
(`hasattr(x, "items")`) are treated as dicts, anything else falls back to
`str(x)`. -/
def json_safe : PyVal → PyVal
  | .pnone => .pnone
  | .pbool b => .pbool b
  | .pint n => .pint n
  | .pfloat q => .pfloat q
  | .pstr s => .pstr s
  | .pdatetime iso => .pstr iso
  | .pdict es => .pdict (json_safe_entries es)
  | .plist xs => .plist (json_safe_vals xs)
  | .ptuple xs => .plist (json_safe_vals xs)
  | .pset xs => .plist (json_safe_vals xs)
  | .pnpint n => .pint n
  | .pnpfloat q => .pfloat q
  | .pnpbool b => .pbool b
  | .pdictlike es => .pdict (json_safe_entries es)
  | .pobj s => .pstr s

/-- `[_json_safe(v) for v in x]` over a list spine. -/
def json_safe_vals : PyVals → PyVals
  | .nil => .nil
  | .cons x xs => .cons (json_safe x) (json_safe_vals xs)

/-- `{str(k): _json_safe(v) for k, v in x.items()}` over the entries. -/
def json_safe_entries : PyEntries → PyEntries
  | .nil => .nil
  | .cons k v es => .cons (.pstr (pyStr k)) (json_safe v) (json_safe_entries es)

end

mutual

theorem json_safe_idem : (x : PyVal) → json_safe (json_safe x) = json_safe x
  | .pnone => rfl
  | .pbool _ => rfl
  | .pint _ => rfl
  | .pfloat _ => rfl
  | .pstr _ => rfl
  | .pdatetime _ => rfl
  | .pdict es => by simp [json_safe, json_safe_entries_idem es]
  | .plist xs => by simp [json_safe, json_safe_vals_idem xs]
  | .ptuple xs => by simp [json_safe, json_safe_vals_idem xs]
  | .pset xs => by simp [json_safe, json_safe_vals_idem xs]
  | .pnpint _ => rfl
  | .pnpfloat _ => rfl
  | .pnpbool _ => rfl
  | .pdictlike es => by simp [json_safe, json_safe_entries_idem es]
  | .pobj _ => rfl

theorem json_safe_vals_idem : (xs : PyVals) →
    json_safe_vals (json_safe_vals xs) = json_safe_vals xs
  | .nil => rfl
  | .cons x xs => by
      simp [json_safe_vals, json_safe_idem x, json_safe_vals_idem xs]

theorem json_safe_entries_idem : (es : PyEntries) →
    json_safe_entries (json_safe_entries es) = json_safe_entries es
  | .nil => rfl
  | .cons k v es => by
      simp [json_safe_entries, pyStr, json_safe_idem v, json_safe_entries_idem es]

end

/-- C4: normalization is idempotent — `_json_safe(_json_safe(x)) == _json_safe(x)`
for every (finite) input value `x`. -/
theorem C4_json_safe_idempotent (x : PyVal) :
    json_safe (json_safe x) = json_safe x :=
  json_safe_idem x

/-! ## Serialization: `json.dumps` followed by `json.loads`

`cache_set` stores `json.dumps(value)` and `cache_get` only ever observes
that text through `json.loads`, so the stored cell is modelled by the
composite round trip.  `json.dumps` raises `TypeError` on values outside
the JSON universe (modelled as `none`); dumping a tuple yields a JSON
array.  The stdlib's coercion of non-string *scalar* dict keys is not
modelled (every call site in this repository stores string-keyed
values), so non-string keys also map to `none`. -/

mutual

/-- `json.loads(json.dumps(v))`, or `none` where `json.dumps` raises. -/
def dumpsLoads : PyVal → Option PyVal
  | .pnone => some .pnone
  | .pbool b => some (.pbool b)
  | .pint n => some (.pint n)
  | .pfloat q => some (.pfloat q)
  | .pstr s => some (.pstr s)
  | .pdatetime _ => none
  | .pdict es => (dumpsLoadsEntries es).map .pdict
  | .plist xs => (dumpsLoadsVals xs).map .plist
  | .ptuple xs => (dumpsLoadsVals xs).map .plist
  | .pset _ => none
  | .pnpint _ => none
  | .pnpfloat _ => none
  | .pnpbool _ => none
  | .pdictlike _ => none
  | .pobj _ => none

/-- Round trip over a list spine; fails if any element fails. -/
def dumpsLoadsVals : PyVals → Option PyVals
  | .nil => some .nil
  | .cons x xs =>
      match dumpsLoads x, dumpsLoadsVals xs with
      | some y, some ys => some (.cons y ys)
      | _, _ => none

/-- Round trip over dict entries; keys must already be strings. -/
def dumpsLoadsEntries : PyEntries → Option PyEntries
  | .nil => some .nil
  | .cons (.pstr s) v es =>
      match dumpsLoads v, dumpsLoadsEntries es with
      | some w, some fs => some (.cons (.pstr s) w fs)
      | _, _ => none
  | .cons _ _ _ => none

end

mutual

/-- Membership in the JSON value universe: `null`, booleans, numbers,
strings, arrays of JSON values, string-keyed objects of JSON values. -/
def isJsonVal : PyVal → Bool
  | .pnone => true
  | .pbool _ => true
  | .pint _ => true
  | .pfloat _ => true
  | .pstr _ => true
  | .pdict es => isJsonValEntries es
  | .plist xs => isJsonValVals xs
  | _ => false

def isJsonValVals : PyVals → Bool
  | .nil => true
  | .cons x xs => isJsonVal x && isJsonValVals xs

def isJsonValEntries : PyEntries → Bool
  | .nil => true
  | .cons k v es =>
      (match k with | .pstr _ => true | _ => false) && isJsonVal v && isJsonValEntries es

end

mutual

theorem dumpsLoads_eq_of_isJsonVal : (v : PyVal) → isJsonVal v = true →
    dumpsLoads v = some v
  | .pnone, _ => rfl
  | .pbool _, _ => rfl
  | .pint _, _ => rfl
  | .pfloat _, _ => rfl
  | .pstr _, _ => rfl
  | .pdict es, h => by
      simp only [isJsonVal] at h
      simp [dumpsLoads, dumpsLoadsEntries_eq_of_isJsonVal es h]
  | .plist xs, h => by
      simp only [isJsonVal] at h
      simp [dumpsLoads, dumpsLoadsVals_eq_of_isJsonVal xs h]

theorem dumpsLoadsVals_eq_of_isJsonVal : (xs : PyVals) → isJsonValVals xs = true →
    dumpsLoadsVals xs = some xs
  | .nil, _ => rfl
  | .cons x xs, h => by
      simp only [isJsonValVals, Bool.and_eq_true] at h
      simp [dumpsLoadsVals, dumpsLoads_eq_of_isJsonVal x h.1,
            dumpsLoadsVals_eq_of_isJsonVal xs h.2]

theorem dumpsLoadsEntries_eq_of_isJsonVal : (es : PyEntries) → isJsonValEntries es = true →
    dumpsLoadsEntries es = some es
  | .nil, _ => rfl
  | .cons k v es, h => by
      simp only [isJsonValEntries, Bool.and_eq_true] at h
      obtain ⟨⟨hk, hv⟩, hes⟩ := h
      match k, hk with
      | .pstr s, _ =>
        simp [dumpsLoadsEntries, dumpsLoads_eq_of_isJsonVal v hv,
              dumpsLoadsEntries_eq_of_isJsonVal es hes]

end

mutual

theorem isJsonVal_json_safe : (x : PyVal) → isJsonVal (json_safe x) = true
  | .pnone => rfl
  | .pbool _ => rfl
  | .pint _ => rfl
  | .pfloat _ => rfl
  | .pstr _ => rfl
  | .pdatetime _ => rfl
  | .pdict es => by simp [json_safe, isJsonVal, isJsonValEntries_json_safe es]
  | .plist xs => by simp [json_safe, isJsonVal, isJsonValVals_json_safe xs]
  | .ptuple xs => by simp [json_safe, isJsonVal, isJsonValVals_json_safe xs]
  | .pset xs => by simp [json_safe, isJsonVal, isJsonValVals_json_safe xs]
  | .pnpint _ => rfl
  | .pnpfloat _ => rfl
  | .pnpbool _ => rfl
  | .pdictlike es => by simp [json_safe, isJsonVal, isJsonValEntries_json_safe es]
  | .pobj _ => rfl

theorem isJsonValVals_json_safe : (xs : PyVals) → isJsonValVals (json_safe_vals xs) = true
  | .nil => rfl
  | .cons x xs => by
      simp [json_safe_vals, isJsonValVals, isJsonVal_json_safe x,
            isJsonValVals_json_safe xs]

theorem isJsonValEntries_json_safe : (es : PyEntries) →
    isJsonValEntries (json_safe_entries es) = true
  | .nil => rfl
  | .cons k v es => by
      simp [json_safe_entries, isJsonValEntries, isJsonVal_json_safe v,
            isJsonValEntries_json_safe es]

end

/-! ## Persistent Cache Store (`src/services/cache_store.py`)

The `kv_cache` table is a function from keys to optional rows.  A row's
`cell` is the `json.loads` image of its `value_json` text (`none` when
the text does not parse).  `cache_get` returns `json.loads(...)`
directly, so a stored JSON `null` comes back as Python `None` — in this
model both "absent" and "stored null" are the `none` of the returned
`Option PyVal`, exactly as at the Python call sites. -/

/-- One row of `kv_cache`. -/
structure CacheRow where
  cell : Option PyVal
  created_at : Int
  ttl_seconds : Option Int

/-- The whole `kv_cache` table. -/
def CacheState := String → Option CacheRow

/-- The table with no rows. -/
def emptyCache : CacheState := fun _ => none

/-- A Python function returning value `v` hands `None` to its caller when
`v` is `None`; at the `Optional[Any]` interface that is `none`. -/
def pyRet : PyVal → Option PyVal
  | .pnone => none
  | v => some v

/-- `try: return json.loads(text) except: return None` on a cell. -/
def readCell : Option PyVal → Option PyVal
  | none => none
  | some v => pyRet v

/-- `cache_delete` from `src/services/cache_store.py`:
`DELETE FROM kv_cache WHERE key = ?`. -/
def cache_delete (st : CacheState) (key : String) : CacheState :=
  fun k => if k = key then none else st k

/-- `cache_get` from `src/services/cache_store.py`: select the row; on a
present row with a non-null ttl, lazily delete and return `None` when
`now - created_at > ttl`; otherwise return the parsed value (with a
parse failure degraded to `None`).  Returns the updated table and the
Python return value. -/
def cache_get (st : CacheState) (now : Int) (key : String) :
    CacheState × Option PyVal :=
  match st key with
  | none => (st, none)
  | some row =>
      match row.ttl_seconds with
      | some ttl =>
          if now - row.created_at > ttl then (cache_delete st key, none)
          else (st, readCell row.cell)
      | none => (st, readCell row.cell)

/-- `cache_set` from `src/services/cache_store.py`: upsert of
`(key, json.dumps(value), int(time.time()), ttl_seconds)`.  The stored
cell is the round-trip image of `value` (the only observation ever made
of the text). -/
def cache_set (st : CacheState) (now : Int) (key : String) (value : PyVal)
    (ttl_seconds : Option Int) : CacheState :=
  fun k => if k = key then some ⟨dumpsLoads value, now, ttl_seconds⟩ else st k

/-- C2: TTL correctness of the cache store.  For every table, key, JSON
value and `ttl > 0`: after `cache_set` at `t0`, a `cache_get` at any
`t ≤ t0 + ttl` leaves the table unchanged and returns the stored value
(as Python hands it back), while a `cache_get` at any `t > t0 + ttl`
deletes the row and returns absent. -/
theorem C2_cache_ttl_correct (st : CacheState) (t0 : Int) (key : String)
    (v : PyVal) (ttl t : Int) (hv : isJsonVal v = true) (httl : 0 < ttl) :
    (t ≤ t0 + ttl →
      cache_get (cache_set st t0 key v (some ttl)) t key
        = (cache_set st t0 key v (some ttl), pyRet v)) ∧
    (t0 + ttl < t →
      cache_get (cache_set st t0 key v (some ttl)) t key
        = (cache_delete (cache_set st t0 key v (some ttl)) key, none) ∧
      (cache_get (cache_set st t0 key v (some ttl)) t key).1 key = none) := by
  have hcell : dumpsLoads v = some v := dumpsLoads_eq_of_isJsonVal v hv
  constructor
  · intro hle
    have hnotexp : ¬ (t - t0 > ttl) := by omega
    simp [cache_get, cache_set, hcell, hnotexp, readCell]
  · intro hgt
    have hexp : t - t0 > ttl := by omega
    constructor
    · simp [cache_get, cache_set, hexp, hcell]
    · simp [cache_get, cache_set, hexp, hcell, cache_delete]

/-- Witness for C2 at a concrete input: key `"k"`, value `5`, `ttl = 10`,
set at `t0 = 100`; a read at `t = 110` returns the value, a read at
`t = 111` deletes the row and returns absent. -/
theorem C2_cache_ttl_correct_witness :
    cache_get (cache_set emptyCache 100 "k" (.pint 5) (some 10)) 110 "k"
      = (cache_set emptyCache 100 "k" (.pint 5) (some 10), some (.pint 5)) ∧
    (cache_get (cache_set emptyCache 100 "k" (.pint 5) (some 10)) 111 "k").2 = none := by
  refine ⟨?_, ?_⟩
  · have h := (C2_cache_ttl_correct emptyCache 100 "k" (.pint 5) 10 110
      (by decide) (by decide)).1 (by decide)
    simpa [pyRet] using h
  · have h := (C2_cache_ttl_correct emptyCache 100 "k" (.pint 5) 10 111
      (by decide) (by decide)).2 (by decide)
    simp [h.1]

/-! ## `cache_clear` and SQLite `LIKE`

`cache_clear(prefix)` executes `DELETE FROM kv_cache WHERE key LIKE ?`
with the pattern `f"{prefix}%"`.  SQLite's `LIKE` is, by default (the
connection in `src/db.py` sets no `case_sensitive_like` pragma),
case-insensitive for ASCII letters: both operands are folded before
comparison.  `%` matches any character sequence and `_` any single
character.  The matcher below is written with explicit fuel (any fuel
larger than `pattern.length + target.length` is enough, and the wrapper
supplies it) so that it reduces definitionally. -/

/-- SQLite `LIKE` character comparison: ASCII case folding. -/
def likeCharEq (p c : Char) : Bool := p.toLower == c.toLower

/-- Fuelled SQLite `LIKE` matcher over character lists. -/
def likeMatchF : Nat → List Char → List Char → Bool
  | 0, _, _ => false
  | _ + 1, [], s => s.isEmpty
  | f + 1, p :: ps, s =>
      if p = '%' then
        likeMatchF f ps s ||
          (match s with
           | [] => false
           | _ :: s2 => likeMatchF f (p :: ps) s2)
      else
        match s with
        | [] => false
        | c :: s2 => (if p = '_' then true else likeCharEq p c) && likeMatchF f ps s2

/-- `key LIKE pattern` for strings, with sufficient fuel. -/
def likeMatch (pat s : String) : Bool :=
  likeMatchF (pat.data.length + s.data.length + 1) pat.data s.data

/-- `cache_clear` from `src/services/cache_store.py`: with a truthy
(non-`None`, non-empty) `prefix`, delete the keys matching
`LIKE f"{prefix}%"`; otherwise (`None` or `""`) delete every row. -/
def cache_clear (st : CacheState) (pref : Option String) : CacheState :=
  match pref with
  | some p =>
      if p = "" then fun _ => none
      else fun k => if likeMatch (p ++ "%") k then none else st k
  | none => fun _ => none

/-- A trailing `%` matches any remaining characters. -/
theorem likeMatchF_percent (f : Nat) (s : List Char) (h : 1 + s.length < f) :
    likeMatchF f ['%'] s = true := by
  induction f generalizing s with
  | zero => omega
  | succ f ih =>
      match s with
      | [] =>
          have hf : 1 ≤ f := by omega
          match f, hf with
          | g + 1, _ => simp [likeMatchF, List.isEmpty]
      | c :: s2 =>
          have h2 : 1 + s2.length < f := by simp at h; omega
          simp [likeMatchF, ih s2 h2]

/-- For a wildcard-free pattern `p`, `p ++ ['%']` matches `s` exactly when
the case-folded `p` is a prefix of the case-folded `s`. -/
theorem likeMatchF_lit_percent (p : List Char)
    (hw : ∀ c ∈ p, c ≠ '%' ∧ c ≠ '_') (s : List Char) (f : Nat)
    (hf : p.length + s.length + 1 < f) :
    likeMatchF f (p ++ ['%']) s
      = (p.map Char.toLower).isPrefixOf (s.map Char.toLower) := by
  induction p generalizing s f with
  | nil =>
      simp only [List.nil_append, List.map_nil, List.isPrefixOf]
      refine likeMatchF_percent f s ?_
      simp only [List.length_nil] at hf
      omega
  | cons a p ih =>
      have ha := hw a (by simp)
      match f, hf with
      | f + 1, hf =>
        match s with
        | [] =>
            simp [likeMatchF, ha.1, ha.2, List.isPrefixOf]
        | c :: s2 =>
            have hw2 : ∀ c ∈ p, c ≠ '%' ∧ c ≠ '_' := fun c hc => hw c (by simp [hc])
            have hf2 : p.length + s2.length + 1 < f := by
              simp only [List.length_cons] at hf
              omega
            simp [likeMatchF, ha.1, ha.2, List.isPrefixOf, likeCharEq,
                  ih hw2 s2 f hf2]

/-- C8 counterexample: the claim says a key that does not start with
`"quote:"` survives `cache_clear(prefix="quote:")`; but SQLite `LIKE` is
ASCII-case-insensitive, so the key `"QUOTE:AAPL"` — which does not start
with `"quote:"` — is deleted. -/
theorem C8_counterexample :
    (cache_clear (cache_set emptyCache 0 "QUOTE:AAPL" (.pint 1) none)
        (some "quote:")) "QUOTE:AAPL" = none ∧
    "quote:".data.isPrefixOf "QUOTE:AAPL".data = false := by
  constructor
  · rfl
  · rfl

/-- C8 as amended: `cache_clear(prefix="quote:")` deletes exactly the keys
whose ASCII-case-folded form starts with `"quote:"` (SQLite `LIKE`
semantics) and leaves every other key unchanged; `cache_clear` with no
prefix deletes all entries. -/
theorem C8_amended_clear (st : CacheState) (k : String) :
    (cache_clear st (some "quote:")) k
      = (if ("quote:".data.map Char.toLower).isPrefixOf (k.data.map Char.toLower)
         then none else st k) ∧
    (cache_clear st none) k = none := by
  constructor
  · have hdata : ("quote:" ++ "%").data = "quote:".data ++ ['%'] := rfl
    have hw : ∀ c ∈ "quote:".data, c ≠ '%' ∧ c ≠ '_' := by decide
    have hm : likeMatch ("quote:" ++ "%") k
        = ("quote:".data.map Char.toLower).isPrefixOf (k.data.map Char.toLower) := by
      unfold likeMatch
      rw [hdata]
      exact likeMatchF_lit_percent "quote:".data hw k.data _ (by simp [hdata])
    simp only [cache_clear, if_neg (by decide : ¬ ("quote:" = ""))]
    rw [hm]
  · rfl

/-! ## Stale-Tolerant Memoizer (`_cache_get_or_set` in
`src/services/finance_data.py`)

The loader thunk `fn` is passed as its outcome: `.ok v` means `fn()`
returns `v`, `.error e` means `fn()` raises.  `loaderCalled` records
whether the wrapper invoked `fn` (it does exactly when the cache read
returned `None`).  The wrapper's Python return is `Optional`-shaped for
the same reason as `cache_get`'s. -/

structure MemoOutcome where
  state : CacheState
  result : Except String (Option PyVal)
  loaderCalled : Bool

/-- `_cache_get_or_set(key, ttl, fn)`: return the cached hit if
`cache_get` yields non-`None`; otherwise call `fn`, normalize with
`_json_safe`, store with the given ttl and return the normalized value.
A loader exception propagates — there is no fallback path. -/
def cache_get_or_set (st : CacheState) (now : Int) (key : String) (ttl : Int)
    (loader : Except String PyVal) : MemoOutcome :=
  let g := cache_get st now key
  match g.2 with
  | some hit => ⟨g.1, .ok (some hit), false⟩
  | none =>
      match loader with
      | .error e => ⟨g.1, .error e, true⟩
      | .ok v => ⟨cache_set g.1 now key (json_safe v) (some ttl),
                  .ok (pyRet (json_safe v)), true⟩

theorem pyRet_of_ne (v : PyVal) (h : v ≠ .pnone) : pyRet v = some v := by
  cases v <;> simp_all [pyRet]

/-- C1 counterexample: loader succeeds at `t0 = 0` with value `7`
(`ttl = 100`); with `grace = 50` and `δ = 10 < grace` the claim demands
that the read at `t = 110` return the `t0` value marked stale with the
error embedded and never raised — but the code propagates the loader's
error: there is no grace window in `_cache_get_or_set`. -/
theorem C1_counterexample :
    (cache_get_or_set emptyCache 0 "k" 100 (.ok (.pint 7))).result
      = .ok (some (.pint 7)) ∧
    (cache_get_or_set (cache_get_or_set emptyCache 0 "k" 100 (.ok (.pint 7))).state
        110 "k" 100 (.error "boom")).result = .error "boom" := by
  constructor
  · rfl
  · rfl

/-- C1 as amended: the memoizer has no stale fallback and no grace
window.  After a loader success at `t0` (stored under `key` with the
given ttl), a later read whose loader fails returns the cached value
while `now - t0 ≤ ttl`, and propagates the loader's error for every read
with `now - t0 > ttl` — regardless of any intended grace; no stale
marking or embedded error exists. -/
theorem C1_amended_no_grace (st : CacheState) (t0 : Int) (key : String)
    (ttl : Int) (v : PyVal) (e : String) (t : Int)
    (hfresh : st key = none) (hnn : json_safe v ≠ .pnone) :
    ((t - t0 ≤ ttl →
        (cache_get_or_set
            (cache_get_or_set st t0 key ttl (.ok v)).state t key ttl
            (.error e)).result = .ok (some (json_safe v))) ∧
     (t - t0 > ttl →
        (cache_get_or_set
            (cache_get_or_set st t0 key ttl (.ok v)).state t key ttl
            (.error e)).result = .error e)) := by
  have hst1 : (cache_get_or_set st t0 key ttl (.ok v)).state
      = cache_set st t0 key (json_safe v) (some ttl) := by
    simp [cache_get_or_set, cache_get, hfresh]
  have hcell : dumpsLoads (json_safe v) = some (json_safe v) :=
    dumpsLoads_eq_of_isJsonVal _ (isJsonVal_json_safe v)
  constructor
  · intro hle
    have hnotexp : ¬ (t - t0 > ttl) := by omega
    rw [hst1]
    simp [cache_get_or_set, cache_get, cache_set, hcell, hnotexp,
          readCell, pyRet_of_ne _ hnn]
  · intro hgt
    rw [hst1]
    simp [cache_get_or_set, cache_get, cache_set, hcell, hgt, readCell]

/-- Witness for C1's amended theorem: both branches exercised at concrete
inputs (fresh read at `t = 50`, expired read at `t = 110`). -/
theorem C1_amended_no_grace_witness :
    (cache_get_or_set
        (cache_get_or_set emptyCache 0 "k" 100 (.ok (.pint 7))).state 50 "k" 100
        (.error "boom")).result = .ok (some (.pint 7)) ∧
    (cache_get_or_set
        (cache_get_or_set emptyCache 0 "k" 100 (.ok (.pint 7))).state 110 "k" 100
        (.error "boom")).result = .error "boom" := by
  constructor
  · exact (C1_amended_no_grace emptyCache 0 "k" 100 (.pint 7) "boom" 50
      rfl (by simp [json_safe])).1 (by omega)
  · exact (C1_amended_no_grace emptyCache 0 "k" 100 (.pint 7) "boom" 110
      rfl (by simp [json_safe])).2 (by omega)

/-- C9: a stored JSON `null` is indistinguishable from absence at the
cache's read interface.  After `cache_set(key, None, ttl)` at `t0`, a
`cache_get` at any unexpired `t` returns `None` although the row exists;
a row whose text does not parse as JSON behaves the same; and
`_cache_get_or_set` over such a state invokes its loader on every call. -/
theorem C9_null_reloads (st : CacheState) (t0 : Int) (key : String)
    (ttl : Int) (t : Int) (h : t - t0 ≤ ttl) (loader : Except String PyVal) :
    (cache_get (cache_set st t0 key .pnone (some ttl)) t key).2 = none ∧
    (cache_set st t0 key .pnone (some ttl)) key
      = some ⟨some .pnone, t0, some ttl⟩ ∧
    (∀ st' : CacheState, st' key = some ⟨none, t0, some ttl⟩ →
      (cache_get st' t key).2 = none) ∧
    (cache_get_or_set (cache_set st t0 key .pnone (some ttl)) t key ttl
        loader).loaderCalled = true := by
  have hnotexp : ¬ (t - t0 > ttl) := by omega
  refine ⟨?_, ?_, ?_, ?_⟩
  · simp [cache_get, cache_set, hnotexp, readCell, dumpsLoads, pyRet]
  · simp [cache_set, dumpsLoads]
  · intro st' hrow
    simp [cache_get, hrow, hnotexp, readCell]
  · cases loader <;>
      simp [cache_get_or_set, cache_get, cache_set, hnotexp, readCell,
            dumpsLoads, pyRet]

/-- Witness for C9 at concrete inputs: `null` stored at `t0 = 0` with
`ttl = 60`, read at `t = 30` with a loader that would return `1`. -/
theorem C9_null_reloads_witness :
    (cache_get (cache_set emptyCache 0 "k" .pnone (some 60)) 30 "k").2 = none ∧
    (cache_get_or_set (cache_set emptyCache 0 "k" .pnone (some 60)) 30 "k" 60
        (.ok (.pint 1))).loaderCalled = true := by
  have h := C9_null_reloads emptyCache 0 "k" 60 30 (by omega) (.ok (.pint 1))
  exact ⟨h.1, h.2.2.2⟩

/-! ## Usage Quota Ledger (`src/services/usage_limits.py`)

`consume_search` reads the per-identity per-UTC-day counter through
`cache_get`, applies Python's `or 0` (falsy values become `0`) followed
by `int(...)` under `try/except` (conversion failures become `0`),
denies when `used + cost > daily_limit`, and otherwise stores
`used + cost` with a 26-hour ttl (`26 * 3600 = 93600`).  The UTC date
string `%Y-%m-%d` of a timestamp is modelled by the decimal rendering of
its day number `now / 86400` (floor division): two timestamps produce
the same key suffix iff they fall on the same UTC day. -/

/-- Python truthiness of the modelled values. -/
def pyTruthy : PyVal → Bool
  | .pnone => false
  | .pbool b => b
  | .pint n => n != 0
  | .pfloat q => q != 0
  | .pstr s => !s.isEmpty
  | .pdatetime _ => true
  | .pdict es => match es with | .nil => false | _ => true
  | .plist xs => match xs with | .nil => false | _ => true
  | .ptuple xs => match xs with | .nil => false | _ => true
  | .pset xs => match xs with | .nil => false | _ => true
  | .pnpint n => n != 0
  | .pnpfloat q => q != 0
  | .pnpbool b => b
  | .pdictlike _ => true
  | .pobj _ => true

/-- `int(x)`, with a raised `TypeError`/`ValueError` mapped to the `0`
that the surrounding `except` clause substitutes.  Floats truncate
toward zero; numeric strings parse. -/
def pyIntExc : PyVal → Int
  | .pint n => n
  | .pbool b => if b then 1 else 0
  | .pnpint n => n
  | .pnpbool b => if b then 1 else 0
  | .pfloat q => if q < 0 then -(Rat.floor (-q)) else Rat.floor q
  | .pnpfloat q => if q < 0 then -(Rat.floor (-q)) else Rat.floor q
  | .pstr s => (s.toInt?).getD 0
  | _ => 0

/-- `used = cache_get(k) or 0` followed by `int(used)` under
`try/except`. -/
def pyIntOr0 (o : Option PyVal) : Int :=
  match o with
  | none => 0
  | some v => if pyTruthy v then pyIntExc v else 0

/-- `_today_key()`: the UTC date of `now`, rendered as the day number. -/
def today_key (now : Int) : String := toString (now / 86400)

/-- `f"usage:searches:{email}:{_today_key()}"`. -/
def usage_key (email : String) (now : Int) : String :=
  "usage:searches:" ++ email ++ ":" ++ today_key now

/-- Result of `consume_search`: `(allowed, remaining_after)` plus the
updated store. -/
structure ConsumeOutcome where
  state : CacheState
  allowed : Bool
  remaining : Int

/-- `consume_search` from `src/services/usage_limits.py`. -/
def consume_search (st : CacheState) (now : Int) (email : String)
    (daily_limit : Int) (cost : Int) : ConsumeOutcome :=
  let k := usage_key email now
  let g := cache_get st now k
  let used := pyIntOr0 g.2
  if used + cost > daily_limit then
    ⟨g.1, false, max (daily_limit - used) 0⟩
  else
    ⟨cache_set g.1 now k (.pint (used + cost)) (some (26 * 3600)), true,
      max (daily_limit - (used + cost)) 0⟩

/-- `remaining_searches` from `src/services/usage_limits.py`. -/
def remaining_searches (st : CacheState) (now : Int) (email : String)
    (daily_limit : Int) : CacheState × Int :=
  let g := cache_get st now (usage_key email now)
  (g.1, max (daily_limit - pyIntOr0 g.2) 0)

/-- Two timestamps on the same UTC day (same key) with the given order
are at most 26 h apart, so the 26-hour ttl cannot have expired. -/
theorem sameday_not_expired (a b : Int)
    (hday : a / 86400 = b / 86400) : ¬ (b - a > 93600) := by omega

/-- C7: quota ledger.  With `daily_limit = 3`, a fresh counter, and four
calls on the same UTC day, the first three `consume_search` calls return
`(allowed, remaining) = (true, 2), (true, 1), (true, 0)`, the fourth
returns `(false, 0)`, and the stored `used` counter moves `1, 2, 3` and
is left untouched by the denied call — monotonically non-decreasing
within the day. -/
theorem C7_quota_ledger (st : CacheState) (email : String) (t1 t2 t3 t4 : Int)
    (hfresh : st (usage_key email t1) = none)
    (hd2 : t1 / 86400 = t2 / 86400)
    (hd3 : t1 / 86400 = t3 / 86400)
    (hd4 : t1 / 86400 = t4 / 86400) :
    ((consume_search st t1 email 3 1).allowed = true ∧
      (consume_search st t1 email 3 1).remaining = 2) ∧
    ((consume_search (consume_search st t1 email 3 1).state t2 email 3 1).allowed
        = true ∧
      (consume_search (consume_search st t1 email 3 1).state t2 email
          3 1).remaining = 1) ∧
    ((consume_search (consume_search (consume_search st t1 email 3 1).state t2
          email 3 1).state t3 email 3 1).allowed = true ∧
      (consume_search (consume_search (consume_search st t1 email 3 1).state t2
          email 3 1).state t3 email 3 1).remaining = 0) ∧
    ((consume_search (consume_search (consume_search (consume_search st t1 email
          3 1).state t2 email 3 1).state t3 email 3 1).state t4 email
          3 1).allowed = false ∧
      (consume_search (consume_search (consume_search (consume_search st t1
          email 3 1).state t2 email 3 1).state t3 email 3 1).state t4 email
          3 1).remaining = 0) ∧
    ((consume_search st t1 email 3 1).state (usage_key email t1)
        = some ⟨some (.pint 1), t1, some 93600⟩ ∧
      (consume_search (consume_search st t1 email 3 1).state t2 email
          3 1).state (usage_key email t1)
        = some ⟨some (.pint 2), t2, some 93600⟩ ∧
      (consume_search (consume_search (consume_search st t1 email 3 1).state t2
          email 3 1).state t3 email 3 1).state (usage_key email t1)
        = some ⟨some (.pint 3), t3, some 93600⟩ ∧
      (consume_search (consume_search (consume_search (consume_search st t1
          email 3 1).state t2 email 3 1).state t3 email 3 1).state t4 email
          3 1).state
        = (consume_search (consume_search (consume_search st t1 email 3 1).state
            t2 email 3 1).state t3 email 3 1).state) := by
  have hK2 : usage_key email t2 = usage_key email t1 := by
    unfold usage_key today_key
    rw [hd2]
  have hK3 : usage_key email t3 = usage_key email t1 := by
    unfold usage_key today_key
    rw [hd3]
  have hK4 : usage_key email t4 = usage_key email t1 := by
    unfold usage_key today_key
    rw [hd4]
  have hexp2 : ¬ (t2 - t1 > 93600) := sameday_not_expired t1 t2 hd2
  have hexp3 : ¬ (t3 - t2 > 93600) :=
    sameday_not_expired t2 t3 (hd2 ▸ hd3)
  have hexp4 : ¬ (t4 - t3 > 93600) :=
    sameday_not_expired t3 t4 (hd3 ▸ hd4)
  have h1 : consume_search st t1 email 3 1
      = ⟨cache_set st t1 (usage_key email t1) (.pint 1) (some 93600),
          true, 2⟩ := by
    norm_num [consume_search, cache_get, hfresh, pyIntOr0]
  have h2 : consume_search (cache_set st t1 (usage_key email t1) (.pint 1)
        (some 93600)) t2 email 3 1
      = ⟨cache_set (cache_set st t1 (usage_key email t1) (.pint 1)
            (some 93600)) t2 (usage_key email t1) (.pint 2) (some 93600),
          true, 1⟩ := by
    norm_num [consume_search, hK2, cache_get, cache_set, dumpsLoads, hexp2,
      readCell, pyRet, pyIntOr0, pyTruthy, pyIntExc]
  have h3 : consume_search (cache_set (cache_set st t1 (usage_key email t1)
        (.pint 1) (some 93600)) t2 (usage_key email t1) (.pint 2)
        (some 93600)) t3 email 3 1
      = ⟨cache_set (cache_set (cache_set st t1 (usage_key email t1) (.pint 1)
            (some 93600)) t2 (usage_key email t1) (.pint 2) (some 93600)) t3
            (usage_key email t1) (.pint 3) (some 93600),
          true, 0⟩ := by
    norm_num [consume_search, hK3, cache_get, cache_set, dumpsLoads, hexp3,
      readCell, pyRet, pyIntOr0, pyTruthy, pyIntExc]
  have h4 : consume_search (cache_set (cache_set (cache_set st t1
        (usage_key email t1) (.pint 1) (some 93600)) t2 (usage_key email t1)
        (.pint 2) (some 93600)) t3 (usage_key email t1) (.pint 3)
        (some 93600)) t4 email 3 1
      = ⟨cache_set (cache_set (cache_set st t1 (usage_key email t1) (.pint 1)
            (some 93600)) t2 (usage_key email t1) (.pint 2) (some 93600)) t3
            (usage_key email t1) (.pint 3) (some 93600),
          false, 0⟩ := by
    norm_num [consume_search, hK4, cache_get, cache_set, dumpsLoads, hexp4,
      readCell, pyRet, pyIntOr0, pyTruthy, pyIntExc]
  rw [h1]
  simp only []
  rw [h2]
  simp only []
  rw [h3]
  simp only []
  rw [h4]
  simp [cache_set, dumpsLoads]

/-- Witness for C7 at a concrete input: identity `"u"`, fresh store,
calls at `t = 0, 100, 200, 300` (all on UTC day 0). -/
theorem C7_quota_ledger_witness :
    (consume_search emptyCache 0 "u" 3 1).allowed = true ∧
    (consume_search emptyCache 0 "u" 3 1).remaining = 2 ∧
    (consume_search (consume_search emptyCache 0 "u" 3 1).state 100 "u"
        3 1).remaining = 1 ∧
    (consume_search (consume_search (consume_search (consume_search emptyCache
        0 "u" 3 1).state 100 "u" 3 1).state 200 "u" 3 1).state 300 "u"
        3 1).allowed = false := by
  have h := C7_quota_ledger emptyCache "u" 0 100 200 300 rfl
    (by norm_num) (by norm_num) (by norm_num)
  exact ⟨h.1.1, h.1.2, h.2.1.2, h.2.2.2.1.1⟩

/-! ## Rate-aware fetch client, yfinance side (`src/services/yf_client.py`)

`yf_call(fn, max_attempts=6)` runs `for attempt in range(1, max_attempts+1)`:
each iteration invokes `fn()` and returns its value on success; on any
exception it remembers it as `last`, breaks when `attempt == max_attempts`,
otherwise sleeps (rate-limit-shaped errors get the steeper schedule) and
retries.  After the loop it raises `YFError(str(last) if last else
"yfinance error")`.  The global throttle and the backoff sleeps only
affect timing and are not modelled.  The thunk is modelled by its outcome
on each attempt (`.ok` = returns, `.error` = raises), and the loop by
structural recursion on the fuel `remaining = max_attempts - attempt`. -/

/-- The typed error `yf_call` raises after exhausting attempts. -/
structure YFError where
  msg : String

/-- Result of `yf_call` plus the number of thunk invocations made. -/
structure YfOutcome (α : Type) where
  calls : Nat
  result : Except YFError α

/-- The retry loop of `yf_call`, at `attempt` with
`remaining = max_attempts - attempt` further attempts allowed. -/
def yf_go {α : Type} (thunk : Nat → Except String α) :
    Nat → Nat → YfOutcome α
  | remaining, attempt =>
      match thunk attempt with
      | .ok v => ⟨attempt, .ok v⟩
      | .error e =>
          match remaining with
          | 0 => ⟨attempt, .error ⟨e⟩⟩
          | r + 1 => yf_go thunk r (attempt + 1)

/-- `yf_call` from `src/services/yf_client.py`.  With `max_attempts = 0`
the loop body never runs and `YFError("yfinance error")` is raised. -/
def yf_call {α : Type} (thunk : Nat → Except String α)
    (max_attempts : Nat) : YfOutcome α :=
  match max_attempts with
  | 0 => ⟨0, .error ⟨"yfinance error"⟩⟩
  | m + 1 => yf_go thunk m 1

theorem yf_go_all_fail {α : Type} (thunk : Nat → Except String α)
    (msg : Nat → String) (hfail : ∀ n, thunk n = .error (msg n)) :
    ∀ remaining attempt : Nat,
      yf_go thunk remaining attempt
        = ⟨remaining + attempt, .error ⟨msg (remaining + attempt)⟩⟩ := by
  intro remaining
  induction remaining with
  | zero =>
      intro attempt
      rw [yf_go, hfail attempt]
      simp
  | succ r ih =>
      intro attempt
      have hstep : yf_go thunk (r + 1) attempt = yf_go thunk r (attempt + 1) := by
        rw [yf_go, hfail attempt]
      rw [hstep, ih (attempt + 1)]
      have harg : r + (attempt + 1) = r + 1 + attempt := by omega
      rw [harg]

/-- C3: retry exhaustion.  For a thunk that raises on every invocation,
`yf_call` invokes it exactly `max_attempts` times and then raises a
typed `YFError` wrapping the last underlying error; it never returns a
value. -/
theorem C3_retry_exhaustion {α : Type} (thunk : Nat → Except String α)
    (msg : Nat → String) (max_attempts : Nat)
    (hfail : ∀ n, thunk n = .error (msg n)) (hpos : 1 ≤ max_attempts) :
    yf_call thunk max_attempts
      = ⟨max_attempts, .error ⟨msg max_attempts⟩⟩ := by
  match max_attempts, hpos with
  | m + 1, _ =>
      have := yf_go_all_fail thunk msg hfail m 1
      simp only [yf_call]
      rw [this]

/-- Witness for C3: a thunk that always raises a rate-limit-shaped error,
with the source's default `max_attempts = 6`. -/
theorem C3_retry_exhaustion_witness :
    yf_call (fun _ => (.error "429 Too Many Requests" : Except String Nat)) 6
      = ⟨6, .error ⟨"429 Too Many Requests"⟩⟩ :=
  C3_retry_exhaustion _ (fun _ => "429 Too Many Requests") 6
    (fun _ => rfl) (by norm_num)

/-- C6 counterexample: a non-transient, non-rate-limit failure (a
404-shaped exception) is retried by `yf_call` for the full
`max_attempts = 6` invocations — not "a single attempt": `yf_call`
retries every exception, and the rate-limit classification only selects
the backoff schedule. -/
theorem C6_counterexample :
    (yf_call (fun _ => (.error "HTTP 404 Not Found" : Except String Nat))
        6).calls = 6 ∧
    ¬ (yf_call (fun _ => (.error "HTTP 404 Not Found" : Except String Nat))
        6).calls = 1 := by
  exact ⟨rfl, by decide⟩

/-! ## Rate-aware fetch client, RapidAPI side
(`src/services/rapidapi_client.py`)

`rapidapi_get` performs up to `max_attempts = 4` HTTP GETs: statuses
429/500/502/503/504 are retried with backoff, any other status breaks
the loop at once.  After the loop, a final status `>= 400` raises
`RapidAPIError("HTTP {status}. ...")` and a response that does not parse
as JSON raises `RapidAPIError("La respuesta NO es JSON ...")`.  The
response of each attempt is an explicit argument; `jsonBody = none`
models `r.json()` raising `ValueError`.  Errors are plain `String`
messages (all raised errors here are `RapidAPIError`). -/

/-- One HTTP response: status, body text, `r.json()` outcome,
content type. -/
structure HttpResp where
  status : Nat
  text : String
  jsonBody : Option PyVal
  contentType : String

/-- `status in (429, 500, 502, 503, 504)`. -/
def retryStatus (s : Nat) : Bool :=
  s == 429 || s == 500 || s == 502 || s == 503 || s == 504

/-- `text[:300]`. -/
def take300 (s : String) : String := String.mk (s.data.take 300)

/-- The GET/retry loop: returns the number of attempts made and the last
response.  `remaining = max_attempts - attempt` is the fuel. -/
def rapidapi_loop (responses : Nat → HttpResp) : Nat → Nat → Nat × HttpResp
  | remaining, attempt =>
      let r := responses attempt
      if retryStatus r.status then
        match remaining with
        | 0 => (attempt, r)
        | rem + 1 => rapidapi_loop responses rem (attempt + 1)
      else (attempt, r)

/-- Result of `rapidapi_get` plus the number of HTTP attempts made. -/
structure FetchOutcome where
  attempts : Nat
  result : Except String PyVal

/-- `rapidapi_get` from `src/services/rapidapi_client.py`
(`max_attempts = 4`; `hasKey` models the `RAPIDAPI_KEY` presence
check). -/
def rapidapi_get (hasKey : Bool) (responses : Nat → HttpResp) :
    FetchOutcome :=
  if hasKey then
    let lr := rapidapi_loop responses 3 1
    let r := lr.2
    if 400 ≤ r.status then
      ⟨lr.1, .error ("HTTP " ++ toString r.status
        ++ ". Respuesta (primeros 300 chars): " ++ take300 r.text)⟩
    else
      match r.jsonBody with
      | some v => ⟨lr.1, .ok v⟩
      | none =>
          ⟨lr.1, .error ("La respuesta NO es JSON (content-type: "
            ++ r.contentType ++ "). Primeros 300 chars: " ++ take300 r.text)⟩
  else ⟨0, .error "Falta RAPIDAPI_KEY en st.secrets."⟩

theorem append_left_ne_empty (s t : String) (h : ¬ s.data = []) :
    ¬ (s ++ t) = "" := by
  intro he
  have hd := congrArg String.data he
  rw [String.data_append] at hd
  have : s.data = [] := by
    cases hs : s.data with
    | nil => rfl
    | cons a l => rw [hs] at hd; simp at hd
  exact h this

theorem data_append_ne_empty (s t : String) (h : ¬ s.data = []) :
    ¬ (s ++ t).data = [] := by
  rw [String.data_append]
  intro he
  rcases List.append_eq_nil.mp he with ⟨h1, _⟩
  exact h h1

/-- Every error `rapidapi_get` raises carries a non-empty message (the
stored circuit-breaker text is therefore truthy). -/
theorem rapidapi_get_error_ne_empty (hasKey : Bool)
    (responses : Nat → HttpResp) (m : String)
    (h : (rapidapi_get hasKey responses).result = .error m) : ¬ m = "" := by
  unfold rapidapi_get at h
  by_cases hk : hasKey
  · simp only [hk, if_true] at h
    by_cases h4 : 400 ≤ (rapidapi_loop responses 3 1).2.status
    · simp only [h4, if_true] at h
      cases h
      exact append_left_ne_empty _ _
        (data_append_ne_empty _ _ (data_append_ne_empty _ _ (by decide)))
    · simp only [h4, if_false] at h
      cases hj : (rapidapi_loop responses 3 1).2.jsonBody with
      | some v => rw [hj] at h; cases h
      | none =>
          rw [hj] at h
          cases h
          exact append_left_ne_empty _ _
            (data_append_ne_empty _ _ (data_append_ne_empty _ _ (by decide)))
  · simp only [hk, if_false] at h
    cases h
    decide

/-- C6 as amended, RapidAPI side: a first response with a 4xx status
other than 429 fails after exactly one HTTP attempt with a typed error;
a first response with a non-retryable OK-range status whose body is not
JSON also fails after exactly one attempt; and whenever more than one
attempt is made, the first response's status was one of
429/500/502/503/504. -/
theorem C6_amended_rapidapi_classification (responses : Nat → HttpResp) :
    (400 ≤ (responses 1).status → (responses 1).status < 500 →
      (responses 1).status ≠ 429 →
      (rapidapi_get true responses).attempts = 1 ∧
      ∃ m, (rapidapi_get true responses).result = .error m) ∧
    (retryStatus (responses 1).status = false → (responses 1).status < 400 →
      (responses 1).jsonBody = none →
      (rapidapi_get true responses).attempts = 1 ∧
      ∃ m, (rapidapi_get true responses).result = .error m) ∧
    (2 ≤ (rapidapi_get true responses).attempts →
      retryStatus (responses 1).status = true) := by
  refine ⟨?_, ?_, ?_⟩
  · intro h4 h5 h429
    have hret : retryStatus (responses 1).status = false := by
      simp only [retryStatus, Bool.or_eq_false_iff, beq_eq_false_iff_ne]
      omega
    have hloop : rapidapi_loop responses 3 1 = (1, responses 1) := by
      simp [rapidapi_loop, hret]
    have hres : (rapidapi_get true responses).result
        = .error ("HTTP " ++ toString (responses 1).status
          ++ ". Respuesta (primeros 300 chars): "
          ++ take300 (responses 1).text) := by
      simp [rapidapi_get, hloop, h4]
    constructor
    · simp [rapidapi_get, hloop, h4]
    · exact ⟨_, hres⟩
  · intro hret h4 hj
    have hloop : rapidapi_loop responses 3 1 = (1, responses 1) := by
      simp [rapidapi_loop, hret]
    have h4' : ¬ 400 ≤ (responses 1).status := by omega
    have hres : (rapidapi_get true responses).result
        = .error ("La respuesta NO es JSON (content-type: "
          ++ (responses 1).contentType ++ "). Primeros 300 chars: "
          ++ take300 (responses 1).text) := by
      simp [rapidapi_get, hloop, h4', hj]
    constructor
    · simp [rapidapi_get, hloop, h4', hj]
    · exact ⟨_, hres⟩
  · intro h2
    by_contra hr
    have hret : retryStatus (responses 1).status = false := by
      simpa using hr
    have hloop : rapidapi_loop responses 3 1 = (1, responses 1) := by
      simp [rapidapi_loop, hret]
    have h1 : (rapidapi_get true responses).attempts = 1 := by
      unfold rapidapi_get
      rw [if_pos rfl]
      simp only [hloop]
      by_cases h4 : 400 ≤ (responses 1).status
      · simp [h4]
      · simp only [h4, if_false]
        cases hj : (responses 1).jsonBody <;> simp
    omega

/-- Witness for C6's amended theorem: a constant 404 response is answered
after exactly one attempt with a typed error; a constant 429 response
drives the retried-implies-transient conjunct (vacuously exercised via
the 404, which makes one attempt). -/
theorem C6_amended_rapidapi_classification_witness :
    (rapidapi_get true
        (fun _ => ⟨404, "not found", none, "text/html"⟩)).attempts = 1 ∧
    (∃ m, (rapidapi_get true
        (fun _ => ⟨404, "not found", none, "text/html"⟩)).result
          = .error m) := by
  exact (C6_amended_rapidapi_classification
      (fun _ => ⟨404, "not found", none, "text/html"⟩)).1
    (by norm_num) (by norm_num) (by norm_num)

/-! ## `rapidapi_cached_get`: cache plus negative-result circuit breaker

On a cache miss for `cache_key`, a truthy value under
`cache_key + ":err"` short-circuits into `RapidAPIError(str(recent_err))`
without touching the network; otherwise the fetch runs and, when it
raises `RapidAPIError`, `str(e)` is stored under the error key with
`error_ttl_seconds` before re-raising.  (Exceptions that are not
`RapidAPIError` — e.g. network-level errors out of `requests` itself —
are outside this model; every failure of the modelled `rapidapi_get` is
a `RapidAPIError`.) -/

/-- Python truthiness of an `Optional` value (`None` is falsy). -/
def pyTruthyOpt : Option PyVal → Bool
  | none => false
  | some v => pyTruthy v

/-- `str()` of an `Optional` value. -/
def pyStrOpt : Option PyVal → String
  | none => "None"
  | some v => pyStr v

/-- Result of `rapidapi_cached_get`: new store, number of HTTP attempts
performed, and the returned/raised outcome. -/
structure CachedFetchOutcome where
  state : CacheState
  httpAttempts : Nat
  result : Except String PyVal

/-- `rapidapi_cached_get` from `src/services/rapidapi_client.py`. -/
def rapidapi_cached_get (st : CacheState) (now : Int) (hasKey : Bool)
    (responses : Nat → HttpResp) (cache_key : String)
    (ttl_seconds error_ttl_seconds : Int) : CachedFetchOutcome :=
  let g1 := cache_get st now cache_key
  match g1.2 with
  | some v => ⟨g1.1, 0, .ok v⟩
  | none =>
      let err_key := cache_key ++ ":err"
      let g2 := cache_get g1.1 now err_key
      if pyTruthyOpt g2.2 then ⟨g2.1, 0, .error (pyStrOpt g2.2)⟩
      else
        let f := rapidapi_get hasKey responses
        match f.result with
        | .ok data =>
            ⟨cache_set g2.1 now cache_key data (some ttl_seconds),
              f.attempts, .ok data⟩
        | .error e =>
            ⟨cache_set g2.1 now err_key (.pstr e) (some error_ttl_seconds),
              f.attempts, .error e⟩

/-- A key never equals itself with `":err"` appended. -/
theorem key_ne_err_key (k : String) : ¬ (k = k ++ ":err") := by
  intro h
  have hl := congrArg String.length h
  rw [String.length_append] at hl
  have h4 : String.length ":err" = 4 := rfl
  omega

/-- C10: negative-result circuit breaker.  If the upstream fetch raises
(message `e`), the first `rapidapi_cached_get` call stores `e` under
`cache_key ++ ":err"` with ttl `error_ttl_seconds` and raises; any
subsequent call inside that window with no fresh cached value performs
zero HTTP attempts and raises a `RapidAPIError` with the stored text. -/
theorem C10_error_circuit_breaker (st : CacheState) (t1 t2 : Int)
    (responses responses2 : Nat → HttpResp) (key : String)
    (ttl errTtl : Int) (e : String)
    (hkey : st key = none) (herrkey : st (key ++ ":err") = none)
    (hfail : (rapidapi_get true responses).result = .error e)
    (hwin : t2 - t1 ≤ errTtl) :
    (rapidapi_cached_get st t1 true responses key ttl errTtl).result
      = .error e ∧
    (rapidapi_cached_get st t1 true responses key ttl errTtl).state
        (key ++ ":err")
      = some ⟨some (.pstr e), t1, some errTtl⟩ ∧
    (rapidapi_cached_get
        (rapidapi_cached_get st t1 true responses key ttl errTtl).state
        t2 true responses2 key ttl errTtl).httpAttempts = 0 ∧
    (rapidapi_cached_get
        (rapidapi_cached_get st t1 true responses key ttl errTtl).state
        t2 true responses2 key ttl errTtl).result = .error e := by
  have hne : ¬ e = "" := rapidapi_get_error_ne_empty true responses e hfail
  have hc1 : rapidapi_cached_get st t1 true responses key ttl errTtl
      = ⟨cache_set st t1 (key ++ ":err") (.pstr e) (some errTtl),
          (rapidapi_get true responses).attempts, .error e⟩ := by
    simp [rapidapi_cached_get, cache_get, hkey, herrkey, pyTruthyOpt, hfail]
  have hst1key : (cache_set st t1 (key ++ ":err") (.pstr e) (some errTtl)) key
      = none := by
    simp [cache_set, if_neg (key_ne_err_key key), hkey]
  have hnotexp : ¬ (t2 - t1 > errTtl) := by omega
  have hc2 : rapidapi_cached_get
      (cache_set st t1 (key ++ ":err") (.pstr e) (some errTtl))
      t2 true responses2 key ttl errTtl
      = ⟨cache_set st t1 (key ++ ":err") (.pstr e) (some errTtl), 0,
          .error e⟩ := by
    have hemp : e.isEmpty = false := by
      cases he : e.isEmpty
      · rfl
      · exact absurd ((String.isEmpty_iff e).mp he) hne
    simp [rapidapi_cached_get, cache_get, cache_set, dumpsLoads,
      hnotexp, readCell, pyRet, pyTruthyOpt, pyTruthy, hemp, pyStrOpt, pyStr,
      hkey, key_ne_err_key key]
  rw [hc1]
  simp only []
  rw [hc2]
  simp [cache_set, dumpsLoads]

/-- Witness for C10: empty store, constant 404 upstream at `t1 = 0`,
second call at `t2 = 10` with `error_ttl_seconds = 45` and an upstream
that would now succeed — still short-circuited with zero HTTP calls. -/
theorem C10_error_circuit_breaker_witness :
    (rapidapi_cached_get
        (rapidapi_cached_get emptyCache 0 true
          (fun _ => ⟨404, "nf", none, "text/html"⟩) "k" 3600 45).state
        10 true (fun _ => ⟨200, "{}", some (.pdict .nil), "application/json"⟩)
        "k" 3600 45).httpAttempts = 0 ∧
    (rapidapi_cached_get
        (rapidapi_cached_get emptyCache 0 true
          (fun _ => ⟨404, "nf", none, "text/html"⟩) "k" 3600 45).state
        10 true (fun _ => ⟨200, "{}", some (.pdict .nil), "application/json"⟩)
        "k" 3600 45).result
      = .error ("HTTP 404. Respuesta (primeros 300 chars): nf") := by
  have h := C10_error_circuit_breaker emptyCache 0 10
    (fun _ => ⟨404, "nf", none, "text/html"⟩)
    (fun _ => ⟨200, "{}", some (.pdict .nil), "application/json"⟩)
    "k" 3600 45 ("HTTP 404. Respuesta (primeros 300 chars): nf")
    rfl rfl (by rfl) (by norm_num)
  exact ⟨h.2.2.1, h.2.2.2⟩

/-! ## Derived metrics (`get_perf_metrics._load` in
`src/services/finance_data.py`)

The price series delivered by `get_history_daily` is the list of
`(Date, Close)` rows, dates in days.  The float operations the claims do
not depend on numerically — `x ** y`, `Series.std()` and `sqrt` — are
abstracted into `FloatOps`, passed explicitly; every definedness result
below holds for every choice of these operations.  All functions are
total: nothing can raise. -/

/-- The machine-float operations used by `_load`, abstracted. -/
structure FloatOps where
  pow : Rat → Rat → Rat
  std : List Rat → Rat
  sqrt : Rat → Rat

/-- A concrete (all-zero) instantiation of `FloatOps`, used only to
state closed facts that do not depend on the float operations. -/
def floatOpsStub : FloatOps := ⟨fun _ _ => 0, fun _ => 0, fun _ => 0⟩

/-- The dictionary `_load` returns (the `years` echo and the date
strings are kept as the raw endpoint dates). -/
structure PerfMetrics where
  cagr : Option Rat
  volatility : Option Rat
  max_drawdown : Option Rat
  start_date : Option Int
  end_date : Option Int

/-- `closes.pct_change().dropna()`: consecutive simple returns (the
leading `NaN` dropped). -/
def pct_change : List Rat → List Rat
  | [] => []
  | [_] => []
  | a :: b :: rest => (b / a - 1) :: pct_change (b :: rest)

/-- `(closes / closes.cummax()) - 1` with running peak `peak`. -/
def drawdowns (peak : Rat) : List Rat → List Rat
  | [] => []
  | c :: rest => (c / max peak c - 1) :: drawdowns (max peak c) rest

/-- The drawdown series of a close series. -/
def dd_list : List Rat → List Rat
  | [] => []
  | c :: rest => drawdowns c (c :: rest)

/-- `Series.min()` as an `Option`. -/
def list_min : List Rat → Option Rat
  | [] => none
  | c :: rest => some (rest.foldl min c)

/-- `get_perf_metrics._load` after the history fetch: an empty frame
short-circuits to the all-`None` record; otherwise CAGR is defined only
when the day span is positive and the start price positive, volatility
only when at least one return observation exists, and max drawdown is
`dd.min()` (the drawdown series of a non-empty close series is
non-empty). -/
def perf_metrics (ops : FloatOps) (series : List (Int × Rat)) : PerfMetrics :=
  match series with
  | [] => ⟨none, none, none, none, none⟩
  | p0 :: rest =>
      let pl := (p0 :: rest).getLast (List.cons_ne_nil p0 rest)
      let start_price := p0.2
      let end_price := pl.2
      let n_days : Int := pl.1 - p0.1
      let years_span : Option Rat :=
        if 0 < n_days then some ((n_days : Rat) / (1461 / 4)) else none
      let cagr : Option Rat :=
        match years_span with
        | some ys =>
            if 0 < start_price
            then some (ops.pow (end_price / start_price) (1 / ys) - 1)
            else none
        | none => none
      let rets := pct_change ((p0 :: rest).map Prod.snd)
      let volatility : Option Rat :=
        if rets.isEmpty then none else some (ops.std rets * ops.sqrt 252)
      let max_drawdown : Option Rat := list_min (dd_list ((p0 :: rest).map Prod.snd))
      ⟨cagr, volatility, max_drawdown, some p0.1, some pl.1⟩

/-- C5 counterexample: for the single-point series `[(0, 100)]` the code
yields `max_drawdown = 0.0` — a defined value, not the `null` the claim
requires for every metric of a single-point series.  (The value is
independent of the abstracted float operations; the stub only closes the
statement.) -/
theorem C5_counterexample :
    (perf_metrics floatOpsStub [((0 : Int), (100 : Rat))]).max_drawdown
      = some 0 ∧
    ¬ (perf_metrics floatOpsStub [((0 : Int), (100 : Rat))]).max_drawdown
      = none := by
  have h1 : (perf_metrics floatOpsStub [((0 : Int), (100 : Rat))]).max_drawdown
      = some 0 := by
    norm_num [perf_metrics, dd_list, drawdowns, list_min]
  refine ⟨h1, ?_⟩
  rw [h1]
  exact fun h => Option.noConfusion h

/-- C5 as amended: an empty series yields `null` for CAGR, volatility
and max drawdown; a single-point series (positive close) yields `null`
for CAGR and volatility but max drawdown `0`; nothing raises (the model
is total). -/
theorem C5_amended_insufficient_series (ops : FloatOps) (d : Int) (c : Rat)
    (hc : 0 < c) :
    ((perf_metrics ops []).cagr = none ∧
     (perf_metrics ops []).volatility = none ∧
     (perf_metrics ops []).max_drawdown = none) ∧
    ((perf_metrics ops [(d, c)]).cagr = none ∧
     (perf_metrics ops [(d, c)]).volatility = none ∧
     (perf_metrics ops [(d, c)]).max_drawdown = some 0) := by
  refine ⟨⟨rfl, rfl, rfl⟩, ?_, ?_, ?_⟩
  · simp [perf_metrics]
  · simp [perf_metrics, pct_change]
  · simp [perf_metrics, dd_list, drawdowns, list_min,
          div_self (ne_of_gt hc)]

/-- Witness for C5's amended theorem at `ops = floatOpsStub`, series
`[(0, 100)]`. -/
theorem C5_amended_insufficient_series_witness :
    (perf_metrics floatOpsStub []).cagr = none ∧
    (perf_metrics floatOpsStub [((0 : Int), (100 : Rat))]).volatility = none ∧
    (perf_metrics floatOpsStub [((0 : Int), (100 : Rat))]).max_drawdown
      = some 0 := by
  have h := C5_amended_insufficient_series floatOpsStub 0 100 (by norm_num)
  exact ⟨h.1.1, h.2.2.1, h.2.2.2⟩

end CokeApp
